import Mathlib

/-!
Verification development for the trap-handling core of a minimal RISC-V
supervisor kernel (`kernel/src/trap/app_trap.rs`).

The development has two layers, both translated from the source:

* a machine-level model of the two naked assembly trampolines
  (`trap_entry` and `restore_trap`): an instruction type covering exactly
  the instructions those routines use, a machine state (general-purpose
  registers, the four CSRs touched by the code, word-granular memory,
  and the program counter), and a small-step executor over the
  instruction lists transcribed from the `asm!` blocks;

* a functional model of the Rust side: the `TrapContext` struct
  (33 machine words, `repr(C)` order), `app_init_context`, and
  `rust_trap_handler` together with the syscall-collaborator interface.

Machine words are 64-bit (`rv64`: the code uses `ld`/`sd` and `8`-byte
slots); they are modelled as `Nat` with wrap-around taken mod `2 ^ 64`
exactly where the hardware wraps (address computation and `addi`).
-/

/-- General-purpose registers `x1`-`x31` (the zero register `x0` never
appears in the trampolines).  `x2` is the stack pointer `sp`. -/
inductive Reg
  | x1 | x2 | x3 | x4 | x5 | x6 | x7 | x8 | x9 | x10
  | x11 | x12 | x13 | x14 | x15 | x16 | x17 | x18 | x19 | x20
  | x21 | x22 | x23 | x24 | x25 | x26 | x27 | x28 | x29 | x30 | x31
deriving DecidableEq

/-- The control and status registers the trampolines read or write. -/
inductive Csr
  | sstatus | sepc | sscratch | stvec
deriving DecidableEq

/-- Link-time symbols the trampolines take the address of with `la`:
the kernel trap vector (`super::kernel_trap::kernel_trap`) and the
application trap vector (`trap_entry` itself). -/
inductive LinkSym
  | kernelTrapVec | appTrapVec
deriving DecidableEq

/-- One hart's state as seen by the trampoline code: general-purpose
registers, the four CSRs the code touches, byte-addressed memory read
and written one 64-bit word at a time, and the program counter (only
`sret` writes it in this model). -/
structure Machine where
  regs : Reg → Nat
  sstatus : Nat
  sepc : Nat
  sscratch : Nat
  stvec : Nat
  mem : Nat → Nat
  pc : Nat

/-- Link-time environment of the trampolines: addresses of the two trap
vectors, the return address deposited in `ra` by the `call`
pseudo-instruction, and the behaviour of the Rust dispatcher
(`rust_trap_handler`) the `call` transfers to. -/
structure Env where
  kernelTrapVecAddr : Nat
  appTrapVecAddr : Nat
  retAddr : Nat
  handler : Machine → Machine

/-- The instruction forms occurring in `trap_entry` and `restore_trap`.
All loads and stores in those routines are `sp`-based, so the base
register is implicit. -/
inductive Instr
  | csrrwSpSscratch
  | addiSp (imm : Int)
  | sd (rs2 : Reg) (off : Nat)
  | ld (rd : Reg) (off : Nat)
  | csrr (rd : Reg) (csr : Csr)
  | csrw (csr : Csr) (rs : Reg)
  | la (rd : Reg) (sym : LinkSym)
  | mvA0Sp
  | callSym
  | sret
deriving DecidableEq

/-- Wrapping 64-bit add of a (possibly negative) immediate, as `addi`
computes it. -/
def wadd (n : Nat) (imm : Int) : Nat :=
  (((n : Int) + imm) % (2 ^ 64 : Int)).toNat

/-- Effective address of an `sp`-relative load or store: base plus
offset, wrapping at the 64-bit boundary. -/
def memAddr (sp off : Nat) : Nat :=
  (sp + off) % 2 ^ 64

/-- Read one CSR. -/
def csrRead (m : Machine) : Csr → Nat
  | .sstatus => m.sstatus
  | .sepc => m.sepc
  | .sscratch => m.sscratch
  | .stvec => m.stvec

/-- Write one CSR. -/
def csrWrite (m : Machine) : Csr → Nat → Machine
  | .sstatus, v => { m with sstatus := v }
  | .sepc, v => { m with sepc := v }
  | .sscratch, v => { m with sscratch := v }
  | .stvec, v => { m with stvec := v }

/-- Address of a link-time symbol. -/
def symAddr (env : Env) : LinkSym → Nat
  | .kernelTrapVec => env.kernelTrapVecAddr
  | .appTrapVec => env.appTrapVecAddr

/-- Effect of one instruction.  `csrrwSpSscratch` is the atomic exchange
`csrrw sp, sscratch, sp`; `callSym` deposits the return address in
`x1` (`ra`) and transfers control to the Rust dispatcher; `sret` loads
the program counter from `sepc` (the privilege-level change is beyond
this model). -/
def exec (env : Env) : Instr → Machine → Machine
  | .csrrwSpSscratch, m =>
      { m with regs := Function.update m.regs .x2 m.sscratch, sscratch := m.regs .x2 }
  | .addiSp imm, m =>
      { m with regs := Function.update m.regs .x2 (wadd (m.regs .x2) imm) }
  | .sd rs2 off, m =>
      { m with mem := Function.update m.mem (memAddr (m.regs .x2) off) (m.regs rs2) }
  | .ld rd off, m =>
      { m with regs := Function.update m.regs rd (m.mem (memAddr (m.regs .x2) off)) }
  | .csrr rd c, m =>
      { m with regs := Function.update m.regs rd (csrRead m c) }
  | .csrw c rs, m => csrWrite m c (m.regs rs)
  | .la rd s, m =>
      { m with regs := Function.update m.regs rd (symAddr env s) }
  | .mvA0Sp, m =>
      { m with regs := Function.update m.regs .x10 (m.regs .x2) }
  | .callSym, m =>
      env.handler { m with regs := Function.update m.regs .x1 env.retAddr }
  | .sret, m => { m with pc := m.sepc }

/-- Run a list of instructions in order. -/
def execList (env : Env) : List Instr → Machine → Machine
  | [], m => m
  | i :: rest, m => execList env rest (exec env i m)

/-- The save portion of `trap_entry` (everything before `mv a0, sp`),
transcribed instruction for instruction from the `asm!` block. -/
def trap_entry_save : List Instr := [
  .csrrwSpSscratch,
  .addiSp (-(33 * 8)),
  .sd .x1 (0 * 8), .sd .x3 (2 * 8), .sd .x4 (3 * 8), .sd .x5 (4 * 8),
  .sd .x6 (5 * 8), .sd .x7 (6 * 8), .sd .x8 (7 * 8), .sd .x9 (8 * 8),
  .sd .x10 (9 * 8), .sd .x11 (10 * 8), .sd .x12 (11 * 8), .sd .x13 (12 * 8),
  .sd .x14 (13 * 8), .sd .x15 (14 * 8), .sd .x16 (15 * 8), .sd .x17 (16 * 8),
  .sd .x18 (17 * 8), .sd .x19 (18 * 8), .sd .x20 (19 * 8), .sd .x21 (20 * 8),
  .sd .x22 (21 * 8), .sd .x23 (22 * 8), .sd .x24 (23 * 8), .sd .x25 (24 * 8),
  .sd .x26 (25 * 8), .sd .x27 (26 * 8), .sd .x28 (27 * 8), .sd .x29 (28 * 8),
  .sd .x30 (29 * 8), .sd .x31 (30 * 8),
  .csrr .x5 .sstatus, .sd .x5 (31 * 8),
  .csrr .x6 .sepc, .sd .x6 (32 * 8),
  .csrr .x7 .sscratch, .sd .x7 (1 * 8),
  .la .x28 .kernelTrapVec, .csrw .stvec .x28]

/-- The return portion of `trap_entry` after the `call` and before the
final `sret`, transcribed from the `asm!` block. -/
def trap_entry_return : List Instr := [
  .ld .x5 (31 * 8), .ld .x6 (32 * 8), .ld .x7 (1 * 8),
  .csrw .sstatus .x5, .csrw .sepc .x6, .csrw .sscratch .x7,
  .la .x28 .appTrapVec, .csrw .stvec .x28,
  .ld .x1 (0 * 8), .ld .x3 (2 * 8), .ld .x4 (3 * 8), .ld .x5 (4 * 8),
  .ld .x6 (5 * 8), .ld .x7 (6 * 8), .ld .x8 (7 * 8), .ld .x9 (8 * 8),
  .ld .x10 (9 * 8), .ld .x11 (10 * 8), .ld .x12 (11 * 8), .ld .x13 (12 * 8),
  .ld .x14 (13 * 8), .ld .x15 (14 * 8), .ld .x16 (15 * 8), .ld .x17 (16 * 8),
  .ld .x18 (17 * 8), .ld .x19 (18 * 8), .ld .x20 (19 * 8), .ld .x21 (20 * 8),
  .ld .x22 (21 * 8), .ld .x23 (22 * 8), .ld .x24 (23 * 8), .ld .x25 (24 * 8),
  .ld .x26 (25 * 8), .ld .x27 (26 * 8), .ld .x28 (27 * 8), .ld .x29 (28 * 8),
  .ld .x30 (29 * 8), .ld .x31 (30 * 8),
  .addiSp (33 * 8),
  .csrrwSpSscratch]

/-- The full `trap_entry` routine: save, hand the context address to the
dispatcher, restore, `sret`. -/
def trap_entry : List Instr :=
  trap_entry_save ++ [.mvA0Sp, .callSym] ++ trap_entry_return ++ [.sret]

/-- The body of the standalone `restore_trap` routine before its final
`sret`, transcribed independently from its own `asm!` block. -/
def restore_trap_body : List Instr := [
  .ld .x5 (31 * 8), .ld .x6 (32 * 8), .ld .x7 (1 * 8),
  .csrw .sstatus .x5, .csrw .sepc .x6, .csrw .sscratch .x7,
  .la .x28 .appTrapVec, .csrw .stvec .x28,
  .ld .x1 (0 * 8), .ld .x3 (2 * 8), .ld .x4 (3 * 8), .ld .x5 (4 * 8),
  .ld .x6 (5 * 8), .ld .x7 (6 * 8), .ld .x8 (7 * 8), .ld .x9 (8 * 8),
  .ld .x10 (9 * 8), .ld .x11 (10 * 8), .ld .x12 (11 * 8), .ld .x13 (12 * 8),
  .ld .x14 (13 * 8), .ld .x15 (14 * 8), .ld .x16 (15 * 8), .ld .x17 (16 * 8),
  .ld .x18 (17 * 8), .ld .x19 (18 * 8), .ld .x20 (19 * 8), .ld .x21 (20 * 8),
  .ld .x22 (21 * 8), .ld .x23 (22 * 8), .ld .x24 (23 * 8), .ld .x25 (24 * 8),
  .ld .x26 (25 * 8), .ld .x27 (26 * 8), .ld .x28 (27 * 8), .ld .x29 (28 * 8),
  .ld .x30 (29 * 8), .ld .x31 (30 * 8),
  .addiSp (33 * 8),
  .csrrwSpSscratch]

/-- The full standalone `restore_trap` routine. -/
def restore_trap : List Instr := restore_trap_body ++ [.sret]

/-!
Functional model of the Rust side of `app_trap.rs`: the `TrapContext`
struct, `app_init_context`, and `rust_trap_handler`.
-/

-- The `scause`/trap-cause types of the `riscv` crate, as matched on by
-- `rust_trap_handler`.
namespace scause

/-- Synchronous exception causes (`riscv::register::scause::Exception`). -/
inductive Exception
  | InstructionMisaligned | InstructionFault | IllegalInstruction
  | Breakpoint | LoadFault | StoreMisaligned | StoreFault | UserEnvCall
  | InstructionPageFault | LoadPageFault | StorePageFault | Unknown
deriving DecidableEq

/-- Interrupt causes (`riscv::register::scause::Interrupt`). -/
inductive Interrupt
  | UserSoft | SupervisorSoft | UserTimer | SupervisorTimer
  | UserExternal | SupervisorExternal | Unknown
deriving DecidableEq

/-- The value of `scause.cause()` (`riscv::register::scause::Trap`). -/
inductive Trap
  | Exception (e : Exception)
  | Interrupt (i : Interrupt)
deriving DecidableEq

/-- Rendering of an `Exception` value by the derived `Debug` trait. -/
def Exception.debugStr : Exception → String
  | .InstructionMisaligned => "InstructionMisaligned"
  | .InstructionFault => "InstructionFault"
  | .IllegalInstruction => "IllegalInstruction"
  | .Breakpoint => "Breakpoint"
  | .LoadFault => "LoadFault"
  | .StoreMisaligned => "StoreMisaligned"
  | .StoreFault => "StoreFault"
  | .UserEnvCall => "UserEnvCall"
  | .InstructionPageFault => "InstructionPageFault"
  | .LoadPageFault => "LoadPageFault"
  | .StorePageFault => "StorePageFault"
  | .Unknown => "Unknown"

/-- Rendering of an `Interrupt` value by the derived `Debug` trait. -/
def Interrupt.debugStr : Interrupt → String
  | .UserSoft => "UserSoft"
  | .SupervisorSoft => "SupervisorSoft"
  | .UserTimer => "UserTimer"
  | .SupervisorTimer => "SupervisorTimer"
  | .UserExternal => "UserExternal"
  | .SupervisorExternal => "SupervisorExternal"
  | .Unknown => "Unknown"

/-- Rendering of a `Trap` value by the derived `Debug` trait, as the
`{:?}` format specifier prints it. -/
def Trap.debugStr : Trap → String
  | .Exception e => "Exception(" ++ e.debugStr ++ ")"
  | .Interrupt i => "Interrupt(" ++ i.debugStr ++ ")"

end scause

/-- Rendering of a `usize` by the `{:#x}` format specifier: `0x` prefix
followed by lowercase hexadecimal digits. -/
def hexFmt (n : Nat) : String :=
  "0x" ++ String.mk (Nat.toDigits 16 n)

/-- The `TrapContext` struct: `repr(C)`, so its fields occupy offsets
`0..32` (in 8-byte machine words) in declaration order. -/
structure TrapContext where
  ra : Nat
  sp : Nat
  gp : Nat
  tp : Nat
  t0 : Nat
  t1 : Nat
  t2 : Nat
  s0 : Nat
  s1 : Nat
  a0 : Nat
  a1 : Nat
  a2 : Nat
  a3 : Nat
  a4 : Nat
  a5 : Nat
  a6 : Nat
  a7 : Nat
  s2 : Nat
  s3 : Nat
  s4 : Nat
  s5 : Nat
  s6 : Nat
  s7 : Nat
  s8 : Nat
  s9 : Nat
  s10 : Nat
  s11 : Nat
  t3 : Nat
  t4 : Nat
  t5 : Nat
  t6 : Nat
  sstatus : Nat
  sepc : Nat
deriving DecidableEq

/-- The all-zero `TrapContext` produced by
`MaybeUninit::zeroed().assume_init()`. -/
def TrapContext.zeroed : TrapContext :=
  ⟨0, 0, 0, 0, 0, 0, 0, 0, 0, 0, 0, 0, 0, 0, 0, 0, 0,
   0, 0, 0, 0, 0, 0, 0, 0, 0, 0, 0, 0, 0, 0, 0, 0⟩

/-- A `TrapContext` read from memory at base address `base` by field
name, each field at its `repr(C)` offset (field index times 8 bytes).
This is the dispatcher's named-field view of the 33-word block the
trampolines fill by raw offset. -/
def readTrapContext (mem : Nat → Nat) (base : Nat) : TrapContext where
  ra := mem (base + 0 * 8)
  sp := mem (base + 1 * 8)
  gp := mem (base + 2 * 8)
  tp := mem (base + 3 * 8)
  t0 := mem (base + 4 * 8)
  t1 := mem (base + 5 * 8)
  t2 := mem (base + 6 * 8)
  s0 := mem (base + 7 * 8)
  s1 := mem (base + 8 * 8)
  a0 := mem (base + 9 * 8)
  a1 := mem (base + 10 * 8)
  a2 := mem (base + 11 * 8)
  a3 := mem (base + 12 * 8)
  a4 := mem (base + 13 * 8)
  a5 := mem (base + 14 * 8)
  a6 := mem (base + 15 * 8)
  a7 := mem (base + 16 * 8)
  s2 := mem (base + 17 * 8)
  s3 := mem (base + 18 * 8)
  s4 := mem (base + 19 * 8)
  s5 := mem (base + 20 * 8)
  s6 := mem (base + 21 * 8)
  s7 := mem (base + 22 * 8)
  s8 := mem (base + 23 * 8)
  s9 := mem (base + 24 * 8)
  s10 := mem (base + 25 * 8)
  s11 := mem (base + 26 * 8)
  t3 := mem (base + 27 * 8)
  t4 := mem (base + 28 * 8)
  t5 := mem (base + 29 * 8)
  t6 := mem (base + 30 * 8)
  sstatus := mem (base + 31 * 8)
  sepc := mem (base + 32 * 8)

/-- The hart's CSR state visible to the Rust code in this module. -/
structure HartCsrs where
  sstatus : Nat
  sepc : Nat
  sscratch : Nat
  stvec : Nat
deriving DecidableEq

/-- Effect of `sstatus::set_spp(SPP::User)` on the 64-bit `sstatus`
value: the SPP field is bit 8, and `SPP::User` clears it.  All bits
below and above bit 8 are untouched. -/
def set_spp_user (s : Nat) : Nat :=
  s % 256 + 512 * (s / 512)

/-- The SPP field (bit 8) of an `sstatus` value: `0` is `SPP::User`,
`1` is `SPP::Supervisor`. -/
def sppField (s : Nat) : Nat :=
  s / 256 % 2

/-- Model of `TrapContext::app_init_context(entry, app_id, sp)`.  The
Rust code first executes `sstatus::set_spp(SPP::User)` — a write to the
hart's live `sstatus` CSR — then zero-initializes the context and sets
its `sstatus` (read back from the hart), `sepc`, `sp` and `tp` fields.
The result pairs the constructed context with the hart CSR state after
the call. -/
def app_init_context (hart : HartCsrs) (entry app_id sp : Nat) :
    TrapContext × HartCsrs :=
  let hart' : HartCsrs := { hart with sstatus := set_spp_user hart.sstatus }
  let ctx : TrapContext :=
    { TrapContext.zeroed with
        sstatus := hart'.sstatus, sepc := entry, sp := sp, tp := app_id }
  (ctx, hart')

/-- Result shapes of the syscall collaborator
(`crate::syscall::SyscallOperation`). -/
inductive SyscallOperation
  | Return (code extra : Nat)
  | Terminate (code : Nat)
  | UserPanic (file : Option String) (line col : Nat) (msg : Option String)
  | Yield
deriving DecidableEq

/-- The two diverging scheduler-collaborator operations
(`crate::task`). -/
inductive SchedulerCall
  | exit_current_and_run_next
  | suspend_current_and_run_next
deriving DecidableEq

/-- Observable outcome of one `rust_trap_handler` invocation: return to
the trampoline with a (possibly mutated) context, halt the whole kernel
with a panic message, or diverge into a scheduler operation after
printing some lines. -/
inductive HandlerResult
  | ret (ctx : TrapContext)
  | kernelPanic (msg : String)
  | schedule (printed : List String) (call : SchedulerCall)
deriving DecidableEq

/-- Fallback for a missing panic-message field. -/
def orNoMessage : Option String → String
  | some s => s
  | none => "<no message>"

/-- Fallback for a missing panic-file field. -/
def orNoFile : Option String → String
  | some s => s
  | none => "<no file>"

/-- A single-quote character, used by the user-panic diagnostic. -/
def squote : String :=
  String.singleton (Char.ofNat 39)

/-- The line printed on a `Terminate(code)` outcome. -/
def terminateLine (code : Nat) : String :=
  "[Kernel] Process returned with code " ++ Nat.repr code

/-- The line printed on a `UserPanic(file, line, col, msg)` outcome. -/
def userPanicLine (file : Option String) (line col : Nat)
    (msg : Option String) : String :=
  "[Kernel] User process panicked at " ++ squote ++ orNoMessage msg ++ squote
    ++ ", " ++ orNoFile file ++ ":" ++ Nat.repr line ++ ":" ++ Nat.repr col

/-- The panic message for unsupported trap causes. -/
def unsupportedTrapMsg (cause : scause.Trap) (stval : Nat) : String :=
  "Unsupported trap " ++ cause.debugStr ++ ", stval = " ++ hexFmt stval ++ "!"

/-- Model of `rust_trap_handler`.  `sys` is the syscall collaborator
(`crate::syscall::syscall`), called with `(ctx.a7, ctx.a6, [a0..a5],
app_id)`; `cause` is `scause.read().cause()` and `stval` is
`stval::read()`.  On the `Return` arm the handler writes the two result
values into `a0`/`a1` and advances `sepc` by `wrapping_add(4)`. -/
def rust_trap_handler
    (sys : Nat → Nat → List Nat → Nat → SyscallOperation)
    (cause : scause.Trap) (stval : Nat) (ctx : TrapContext) : HandlerResult :=
  match cause with
  | .Exception .UserEnvCall =>
    let app_id := ctx.tp
    match sys ctx.a7 ctx.a6 [ctx.a0, ctx.a1, ctx.a2, ctx.a3, ctx.a4, ctx.a5] app_id with
    | .Return code extra =>
        .ret { ctx with a0 := code, a1 := extra, sepc := (ctx.sepc + 4) % 2 ^ 64 }
    | .Terminate code =>
        .schedule [terminateLine code] .exit_current_and_run_next
    | .UserPanic file line col msg =>
        .schedule [userPanicLine file line col msg] .exit_current_and_run_next
    | .Yield =>
        .schedule [] .suspend_current_and_run_next
  | .Exception .StoreFault =>
      .kernelPanic ("[kernel] PageFault in application, core dumped.")
  | .Exception .StorePageFault =>
      .kernelPanic ("[kernel] PageFault in application, core dumped.")
  | .Exception .IllegalInstruction =>
      .kernelPanic ("[kernel] IllegalInstruction in application, core dumped.")
  | c =>
      .kernelPanic (unsupportedTrapMsg c stval)

/-!
Helper lemmas about the executor and the two trampolines.
-/

/-- Executing an appended instruction list is sequential composition. -/
lemma execList_append (env : Env) (l1 l2 : List Instr) (m : Machine) :
    execList env (l1 ++ l2) m = execList env l2 (execList env l1 m) := by
  induction l1 generalizing m with
  | nil => rfl
  | cons i rest ih => simp [execList, ih]

/-- Inside one 33-word context block whose top does not wrap around the
64-bit address space, effective-address computation is plain addition. -/
lemma memAddr_nowrap (b off : Nat) (h : b + 264 ≤ 2 ^ 64) (hoff : off ≤ 256) :
    memAddr b off = b + off := by
  unfold memAddr; omega

/-- Adding the deallocation immediate `33*8` to a stack pointer whose
block fits below the 64-bit boundary does not wrap. -/
lemma wadd_dealloc (b : Nat) (h : b + 264 < 2 ^ 64) :
    wadd b (33 * 8) = b + 264 := by
  unfold wadd; omega

/-- Subtracting the allocation immediate `33*8` from a kernel stack
pointer of at least one block size does not wrap. -/
lemma wadd_alloc (k : Nat) (h1 : 264 ≤ k) (h2 : k < 2 ^ 64) :
    wadd k (-(33 * 8)) = k - 264 := by
  unfold wadd; omega

/-- What the `restore_trap` body (everything before `sret`) computes,
given only that `sp` points at a 33-word block not wrapping the address
space: every general-purpose register is reloaded from its slot, the
status and program-counter CSRs are reloaded from slots 31 and 32, the
scratch CSR ends up holding the deallocated kernel stack pointer, the
trap vector is switched to the application trap vector, and memory is
untouched. -/
lemma restore_body_spec (env : Env) (m s : Machine) (b : Nat)
    (hs : s = execList env restore_trap_body m)
    (hb : b = m.regs Reg.x2)
    (h : b + 264 < 2 ^ 64) :
    s.regs .x1 = m.mem b ∧ s.regs .x2 = m.mem (b + 8) ∧
    s.regs .x3 = m.mem (b + 16) ∧ s.regs .x4 = m.mem (b + 24) ∧
    s.regs .x5 = m.mem (b + 32) ∧ s.regs .x6 = m.mem (b + 40) ∧
    s.regs .x7 = m.mem (b + 48) ∧ s.regs .x8 = m.mem (b + 56) ∧
    s.regs .x9 = m.mem (b + 64) ∧ s.regs .x10 = m.mem (b + 72) ∧
    s.regs .x11 = m.mem (b + 80) ∧ s.regs .x12 = m.mem (b + 88) ∧
    s.regs .x13 = m.mem (b + 96) ∧ s.regs .x14 = m.mem (b + 104) ∧
    s.regs .x15 = m.mem (b + 112) ∧ s.regs .x16 = m.mem (b + 120) ∧
    s.regs .x17 = m.mem (b + 128) ∧ s.regs .x18 = m.mem (b + 136) ∧
    s.regs .x19 = m.mem (b + 144) ∧ s.regs .x20 = m.mem (b + 152) ∧
    s.regs .x21 = m.mem (b + 160) ∧ s.regs .x22 = m.mem (b + 168) ∧
    s.regs .x23 = m.mem (b + 176) ∧ s.regs .x24 = m.mem (b + 184) ∧
    s.regs .x25 = m.mem (b + 192) ∧ s.regs .x26 = m.mem (b + 200) ∧
    s.regs .x27 = m.mem (b + 208) ∧ s.regs .x28 = m.mem (b + 216) ∧
    s.regs .x29 = m.mem (b + 224) ∧ s.regs .x30 = m.mem (b + 232) ∧
    s.regs .x31 = m.mem (b + 240) ∧
    s.sstatus = m.mem (b + 248) ∧ s.sepc = m.mem (b + 256) ∧
    s.sscratch = b + 264 ∧ s.stvec = env.appTrapVecAddr ∧ s.mem = m.mem := by
  subst hs hb
  have hB : m.regs Reg.x2 + 264 ≤ 2 ^ 64 := le_of_lt h
  have hw : wadd (m.regs Reg.x2) (33 * 8) = m.regs Reg.x2 + 264 :=
    wadd_dealloc _ h
  simp [execList, exec, csrRead, csrWrite, symAddr, restore_trap_body,
    memAddr_nowrap, hB, hw, Function.update_apply]
  and_intros <;>
    first
      | rfl
      | exact congrArg m.mem (by unfold memAddr; omega)
      | (unfold wadd; omega)

set_option maxRecDepth 100000 in
set_option maxHeartbeats 2000000 in
/-- What the save portion of `trap_entry` computes, given a kernel
stack pointer (parked in `sscratch`) with room for one 33-word block:
the stack pointer ends up at the block base, the user stack pointer is
parked in `sscratch`, every general-purpose register and the two CSRs
are stored at their fixed offsets, and the trap vector is switched to
the kernel trap vector. -/
lemma save_spec (env : Env) (m s : Machine) (b : Nat)
    (hs : s = execList env trap_entry_save m)
    (hb : b = m.sscratch - 264)
    (h1 : 264 ≤ m.sscratch) (h2 : m.sscratch < 2 ^ 64) :
    s.regs .x2 = b ∧ s.sscratch = m.regs Reg.x2 ∧
    s.sstatus = m.sstatus ∧ s.sepc = m.sepc ∧
    s.stvec = env.kernelTrapVecAddr ∧
    s.mem b = m.regs .x1 ∧ s.mem (b + 8) = m.regs .x2 ∧
    s.mem (b + 16) = m.regs .x3 ∧ s.mem (b + 24) = m.regs .x4 ∧
    s.mem (b + 32) = m.regs .x5 ∧ s.mem (b + 40) = m.regs .x6 ∧
    s.mem (b + 48) = m.regs .x7 ∧ s.mem (b + 56) = m.regs .x8 ∧
    s.mem (b + 64) = m.regs .x9 ∧ s.mem (b + 72) = m.regs .x10 ∧
    s.mem (b + 80) = m.regs .x11 ∧ s.mem (b + 88) = m.regs .x12 ∧
    s.mem (b + 96) = m.regs .x13 ∧ s.mem (b + 104) = m.regs .x14 ∧
    s.mem (b + 112) = m.regs .x15 ∧ s.mem (b + 120) = m.regs .x16 ∧
    s.mem (b + 128) = m.regs .x17 ∧ s.mem (b + 136) = m.regs .x18 ∧
    s.mem (b + 144) = m.regs .x19 ∧ s.mem (b + 152) = m.regs .x20 ∧
    s.mem (b + 160) = m.regs .x21 ∧ s.mem (b + 168) = m.regs .x22 ∧
    s.mem (b + 176) = m.regs .x23 ∧ s.mem (b + 184) = m.regs .x24 ∧
    s.mem (b + 192) = m.regs .x25 ∧ s.mem (b + 200) = m.regs .x26 ∧
    s.mem (b + 208) = m.regs .x27 ∧ s.mem (b + 216) = m.regs .x28 ∧
    s.mem (b + 224) = m.regs .x29 ∧ s.mem (b + 232) = m.regs .x30 ∧
    s.mem (b + 240) = m.regs .x31 ∧
    s.mem (b + 248) = m.sstatus ∧ s.mem (b + 256) = m.sepc := by
  subst hs hb
  have hB : m.sscratch - 264 + 264 ≤ 2 ^ 64 := by omega
  have hw : wadd m.sscratch (-264) = m.sscratch - 264 := by unfold wadd; omega
  simp [execList, exec, csrRead, csrWrite, symAddr, trap_entry_save,
    memAddr_nowrap _ _ hB, hw, Function.update_apply]

/-!
Claim theorems.
-/

/-- C4: for any register context (arbitrary register and CSR values),
running the whole `trap_entry` cycle — save sequence, dispatcher call,
restore sequence, `sret` — with no intervening mutation of the saved
33-word block (the dispatcher `env.handler` may clobber registers but
preserves memory and, per the C ABI, the stack pointer) returns every
general-purpose register, the status CSR and the saved program counter
bit-identical to their pre-trap values.  The only preconditions are
that the kernel stack pointer parked in `sscratch` has room for one
33-word block and is a valid 64-bit value. -/
theorem trap_entry_round_trip (env : Env) (m : Machine)
    (hmem : ∀ s, (env.handler s).mem = s.mem)
    (hsp : ∀ s, (env.handler s).regs Reg.x2 = s.regs Reg.x2)
    (h1 : 264 ≤ m.sscratch) (h2 : m.sscratch < 2 ^ 64) :
    (∀ r, (execList env trap_entry m).regs r = m.regs r) ∧
    (execList env trap_entry m).sstatus = m.sstatus ∧
    (execList env trap_entry m).sepc = m.sepc := by
  have hsplit : execList env trap_entry m =
      exec env .sret (execList env restore_trap_body
        (exec env .callSym (exec env .mvA0Sp (execList env trap_entry_save m)))) := by
    have hret : trap_entry_return = restore_trap_body := rfl
    simp [trap_entry, execList_append, execList, hret]
  generalize hs0 : execList env trap_entry_save m = s0 at hsplit
  obtain ⟨hx2, hscr, hst, hsep, hstv, hm0, hm1, hm2, hm3, hm4, hm5, hm6, hm7, hm8,
    hm9, hm10, hm11, hm12, hm13, hm14, hm15, hm16, hm17, hm18, hm19, hm20, hm21,
    hm22, hm23, hm24, hm25, hm26, hm27, hm28, hm29, hm30, hm31, hm32⟩ :=
    save_spec env m s0 (m.sscratch - 264) hs0.symm rfl h1 h2
  generalize hs1 : exec env .callSym (exec env .mvA0Sp s0) = s1 at hsplit
  have hs1mem : s1.mem = s0.mem := by
    rw [← hs1]; simp [exec, hmem]
  have hs1x2 : s1.regs Reg.x2 = m.sscratch - 264 := by
    rw [← hs1]
    simpa [exec, hsp, Function.update_apply] using hx2
  have hb1 : s1.regs Reg.x2 + 264 < 2 ^ 64 := by rw [hs1x2]; omega
  obtain ⟨r01, r02, r03, r04, r05, r06, r07, r08, r09, r10, r11, r12, r13, r14, r15,
    r16, r17, r18, r19, r20, r21, r22, r23, r24, r25, r26, r27, r28, r29, r30, r31,
    rst, rse, rscr, rstv, rmem⟩ :=
    restore_body_spec env s1 (execList env restore_trap_body s1) (s1.regs Reg.x2)
      rfl rfl hb1
  rw [hsplit]
  refine ⟨?_, ?_, ?_⟩
  · intro r
    cases r
    case x1 => simp only [exec]; rw [r01, hs1x2, hs1mem]; exact hm0
    case x2 => simp only [exec]; rw [r02, hs1x2, hs1mem]; exact hm1
    case x3 => simp only [exec]; rw [r03, hs1x2, hs1mem]; exact hm2
    case x4 => simp only [exec]; rw [r04, hs1x2, hs1mem]; exact hm3
    case x5 => simp only [exec]; rw [r05, hs1x2, hs1mem]; exact hm4
    case x6 => simp only [exec]; rw [r06, hs1x2, hs1mem]; exact hm5
    case x7 => simp only [exec]; rw [r07, hs1x2, hs1mem]; exact hm6
    case x8 => simp only [exec]; rw [r08, hs1x2, hs1mem]; exact hm7
    case x9 => simp only [exec]; rw [r09, hs1x2, hs1mem]; exact hm8
    case x10 => simp only [exec]; rw [r10, hs1x2, hs1mem]; exact hm9
    case x11 => simp only [exec]; rw [r11, hs1x2, hs1mem]; exact hm10
    case x12 => simp only [exec]; rw [r12, hs1x2, hs1mem]; exact hm11
    case x13 => simp only [exec]; rw [r13, hs1x2, hs1mem]; exact hm12
    case x14 => simp only [exec]; rw [r14, hs1x2, hs1mem]; exact hm13
    case x15 => simp only [exec]; rw [r15, hs1x2, hs1mem]; exact hm14
    case x16 => simp only [exec]; rw [r16, hs1x2, hs1mem]; exact hm15
    case x17 => simp only [exec]; rw [r17, hs1x2, hs1mem]; exact hm16
    case x18 => simp only [exec]; rw [r18, hs1x2, hs1mem]; exact hm17
    case x19 => simp only [exec]; rw [r19, hs1x2, hs1mem]; exact hm18
    case x20 => simp only [exec]; rw [r20, hs1x2, hs1mem]; exact hm19
    case x21 => simp only [exec]; rw [r21, hs1x2, hs1mem]; exact hm20
    case x22 => simp only [exec]; rw [r22, hs1x2, hs1mem]; exact hm21
    case x23 => simp only [exec]; rw [r23, hs1x2, hs1mem]; exact hm22
    case x24 => simp only [exec]; rw [r24, hs1x2, hs1mem]; exact hm23
    case x25 => simp only [exec]; rw [r25, hs1x2, hs1mem]; exact hm24
    case x26 => simp only [exec]; rw [r26, hs1x2, hs1mem]; exact hm25
    case x27 => simp only [exec]; rw [r27, hs1x2, hs1mem]; exact hm26
    case x28 => simp only [exec]; rw [r28, hs1x2, hs1mem]; exact hm27
    case x29 => simp only [exec]; rw [r29, hs1x2, hs1mem]; exact hm28
    case x30 => simp only [exec]; rw [r30, hs1x2, hs1mem]; exact hm29
    case x31 => simp only [exec]; rw [r31, hs1x2, hs1mem]; exact hm30
  · simp only [exec]; rw [rst, hs1x2, hs1mem]; exact hm31
  · simp only [exec]; rw [rse, hs1x2, hs1mem]; exact hm32

/-- A concrete link-time environment whose dispatcher is the identity
(no mutation of anything), used to instantiate theorems with
hypotheses. -/
def exampleEnv : Env :=
  { kernelTrapVecAddr := 21, appTrapVecAddr := 22, retAddr := 23, handler := id }

/-- A concrete machine state with a kernel stack pointer parked in
`sscratch`, used to instantiate theorems with hypotheses. -/
def exampleMachine : Machine :=
  { regs := fun _ => 77, sstatus := 5, sepc := 4096, sscratch := 100000,
    stvec := 9, mem := fun a => a, pc := 0 }

/-- Witness for C4: the round trip at a concrete machine state and the
identity dispatcher. -/
theorem trap_entry_round_trip_witness :
    (∀ r, (execList exampleEnv trap_entry exampleMachine).regs r
      = exampleMachine.regs r) ∧
    (execList exampleEnv trap_entry exampleMachine).sstatus
      = exampleMachine.sstatus ∧
    (execList exampleEnv trap_entry exampleMachine).sepc
      = exampleMachine.sepc :=
  trap_entry_round_trip exampleEnv exampleMachine (fun _ => rfl) (fun _ => rfl)
    (by decide) (by decide)

/-- C5: the standalone `restore_trap` routine is, instruction for
instruction, the same sequence as the tail of `trap_entry` after the
dispatcher call (`trap_entry.drop 42` drops the save sequence, the
`mv`, and the `call`), and therefore executing either from any machine
state — in particular from one whose stack pointer addresses an
arbitrary valid register-context block — produces the identical
machine state. -/
theorem restore_trap_matches_trap_entry_tail :
    restore_trap = trap_entry.drop 42 ∧
    ∀ (env : Env) (m : Machine),
      execList env restore_trap m = execList env (trap_entry.drop 42) m := by
  have h : restore_trap = trap_entry.drop 42 := by decide
  exact ⟨h, fun env m => by rw [h]⟩

/-- C2 counterexample: the claim says the entry trampoline stores the
read-back scratch CSR (user stack pointer, slot 1) before it stores the
status CSR (slot 31) and program counter CSR (slot 32).  In the actual
save sequence the slot-1 store comes last: the two-element subsequence
"store slot 1, then store slot 31" does not occur in
`trap_entry_save`. -/
theorem trap_entry_save_order_counterexample :
    ¬ ([Instr.sd .x7 (1 * 8), Instr.sd .x5 (31 * 8)].Sublist trap_entry_save) := by
  decide

/-- C2 amended: the entry trampoline follows the spec's save protocol
except that steps 4 and 5 are swapped: it stores the status CSR
(slot 31) and the program counter CSR (slot 32) first, and only then
reads back the scratch CSR and stores it into the reserved
stack-pointer slot (slot 1); the trap-vector switch still follows all
of them.  Stated as: the swapped order occurs as a subsequence of the
save code, and neither CSR store is preceded by the slot-1 store. -/
theorem trap_entry_save_order :
    ([Instr.csrrwSpSscratch, Instr.addiSp (-(33 * 8)),
      Instr.sd .x1 (0 * 8), Instr.sd .x31 (30 * 8),
      Instr.csrr .x5 .sstatus, Instr.sd .x5 (31 * 8),
      Instr.csrr .x6 .sepc, Instr.sd .x6 (32 * 8),
      Instr.csrr .x7 .sscratch, Instr.sd .x7 (1 * 8),
      Instr.la .x28 .kernelTrapVec, Instr.csrw .stvec .x28].Sublist
      trap_entry_save) ∧
    ¬ ([Instr.sd .x7 (1 * 8), Instr.sd .x5 (31 * 8)].Sublist trap_entry_save) ∧
    ¬ ([Instr.sd .x7 (1 * 8), Instr.sd .x6 (32 * 8)].Sublist trap_entry_save) := by
  refine ⟨by decide, by decide, by decide⟩

set_option maxRecDepth 100000 in
set_option maxHeartbeats 2000000 in
/-- C8: trap-vector switching.  At the instant the dispatcher begins
running — that is, in the state the `call` hands to it, which by the
definition of `exec` is the state after `trap_entry_save ++ [mv a0, sp]`
with only `ra` updated — the trap-delivery target is the kernel trap
vector.  Immediately before the final `sret`, on both the normal
`trap_entry` return path (everything of `trap_entry` except the final
`sret`) and the standalone `restore_trap` (its body before `sret`), the
trap-delivery target is the application trap vector, i.e. the address
of `trap_entry` itself.  This holds for every machine state and every
dispatcher behaviour, with no precondition. -/
theorem trap_vector_switch_invariant (env : Env) (m : Machine) :
    (execList env (trap_entry_save ++ [.mvA0Sp]) m).stvec
      = env.kernelTrapVecAddr ∧
    trap_entry
      = (trap_entry_save ++ [.mvA0Sp, .callSym] ++ trap_entry_return) ++ [.sret] ∧
    (execList env (trap_entry_save ++ [.mvA0Sp, .callSym] ++ trap_entry_return) m).stvec
      = env.appTrapVecAddr ∧
    restore_trap = restore_trap_body ++ [.sret] ∧
    (execList env restore_trap_body m).stvec = env.appTrapVecAddr := by
  refine ⟨?_, by simp [trap_entry], ?_, rfl, ?_⟩
  · simp [execList_append, execList, trap_entry_save, exec, csrRead, csrWrite,
      symAddr, Function.update_apply]
  · simp [execList_append, execList, trap_entry_save, trap_entry_return, exec,
      csrRead, csrWrite, symAddr, Function.update_apply]
  · simp [execList, restore_trap_body, exec, csrRead, csrWrite, symAddr,
      Function.update_apply]

set_option maxRecDepth 100000 in
set_option maxHeartbeats 2000000 in
/-- C1: the register context is a fixed-order block of exactly 33
machine words (the trampolines allocate and deallocate exactly `33*8`
bytes), and the raw offsets used by the save/restore assembly agree
bit-exactly with the `repr(C)` offsets of the correspondingly named
`TrapContext` fields (`readTrapContext` reads each named field at its
struct offset): saving an arbitrary machine state and then reading the
block back by named field yields exactly the pre-trap registers — slot
0 the link register `ra`, slot 1 the user stack pointer, slots 2-30 the
registers `x3`-`x31` in architectural order, slot 31 the status CSR,
slot 32 the saved program counter — and conversely the standalone
restore assembly loads every register from the slot of its like-named
field. -/
theorem trap_context_layout_agrees (env : Env) (msave mrest : Machine)
    (h1 : 264 ≤ msave.sscratch) (h2 : msave.sscratch < 2 ^ 64)
    (h3 : mrest.regs Reg.x2 + 264 < 2 ^ 64) :
    trap_entry_save[1]? = some (.addiSp (-(33 * 8))) ∧
    restore_trap[38]? = some (.addiSp (33 * 8)) ∧
    readTrapContext (execList env trap_entry_save msave).mem
        (msave.sscratch - 264) =
      { ra := msave.regs .x1, sp := msave.regs .x2, gp := msave.regs .x3,
        tp := msave.regs .x4, t0 := msave.regs .x5, t1 := msave.regs .x6,
        t2 := msave.regs .x7, s0 := msave.regs .x8, s1 := msave.regs .x9,
        a0 := msave.regs .x10, a1 := msave.regs .x11, a2 := msave.regs .x12,
        a3 := msave.regs .x13, a4 := msave.regs .x14, a5 := msave.regs .x15,
        a6 := msave.regs .x16, a7 := msave.regs .x17, s2 := msave.regs .x18,
        s3 := msave.regs .x19, s4 := msave.regs .x20, s5 := msave.regs .x21,
        s6 := msave.regs .x22, s7 := msave.regs .x23, s8 := msave.regs .x24,
        s9 := msave.regs .x25, s10 := msave.regs .x26, s11 := msave.regs .x27,
        t3 := msave.regs .x28, t4 := msave.regs .x29, t5 := msave.regs .x30,
        t6 := msave.regs .x31, sstatus := msave.sstatus, sepc := msave.sepc } ∧
    ((execList env restore_trap mrest).regs .x1
        = (readTrapContext mrest.mem (mrest.regs Reg.x2)).ra ∧
      (execList env restore_trap mrest).regs .x2
        = (readTrapContext mrest.mem (mrest.regs Reg.x2)).sp ∧
      (execList env restore_trap mrest).regs .x3
        = (readTrapContext mrest.mem (mrest.regs Reg.x2)).gp ∧
      (execList env restore_trap mrest).regs .x4
        = (readTrapContext mrest.mem (mrest.regs Reg.x2)).tp ∧
      (execList env restore_trap mrest).regs .x5
        = (readTrapContext mrest.mem (mrest.regs Reg.x2)).t0 ∧
      (execList env restore_trap mrest).regs .x6
        = (readTrapContext mrest.mem (mrest.regs Reg.x2)).t1 ∧
      (execList env restore_trap mrest).regs .x7
        = (readTrapContext mrest.mem (mrest.regs Reg.x2)).t2 ∧
      (execList env restore_trap mrest).regs .x8
        = (readTrapContext mrest.mem (mrest.regs Reg.x2)).s0 ∧
      (execList env restore_trap mrest).regs .x9
        = (readTrapContext mrest.mem (mrest.regs Reg.x2)).s1 ∧
      (execList env restore_trap mrest).regs .x10
        = (readTrapContext mrest.mem (mrest.regs Reg.x2)).a0 ∧
      (execList env restore_trap mrest).regs .x11
        = (readTrapContext mrest.mem (mrest.regs Reg.x2)).a1 ∧
      (execList env restore_trap mrest).regs .x12
        = (readTrapContext mrest.mem (mrest.regs Reg.x2)).a2 ∧
      (execList env restore_trap mrest).regs .x13
        = (readTrapContext mrest.mem (mrest.regs Reg.x2)).a3 ∧
      (execList env restore_trap mrest).regs .x14
        = (readTrapContext mrest.mem (mrest.regs Reg.x2)).a4 ∧
      (execList env restore_trap mrest).regs .x15
        = (readTrapContext mrest.mem (mrest.regs Reg.x2)).a5 ∧
      (execList env restore_trap mrest).regs .x16
        = (readTrapContext mrest.mem (mrest.regs Reg.x2)).a6 ∧
      (execList env restore_trap mrest).regs .x17
        = (readTrapContext mrest.mem (mrest.regs Reg.x2)).a7 ∧
      (execList env restore_trap mrest).regs .x18
        = (readTrapContext mrest.mem (mrest.regs Reg.x2)).s2 ∧
      (execList env restore_trap mrest).regs .x19
        = (readTrapContext mrest.mem (mrest.regs Reg.x2)).s3 ∧
      (execList env restore_trap mrest).regs .x20
        = (readTrapContext mrest.mem (mrest.regs Reg.x2)).s4 ∧
      (execList env restore_trap mrest).regs .x21
        = (readTrapContext mrest.mem (mrest.regs Reg.x2)).s5 ∧
      (execList env restore_trap mrest).regs .x22
        = (readTrapContext mrest.mem (mrest.regs Reg.x2)).s6 ∧
      (execList env restore_trap mrest).regs .x23
        = (readTrapContext mrest.mem (mrest.regs Reg.x2)).s7 ∧
      (execList env restore_trap mrest).regs .x24
        = (readTrapContext mrest.mem (mrest.regs Reg.x2)).s8 ∧
      (execList env restore_trap mrest).regs .x25
        = (readTrapContext mrest.mem (mrest.regs Reg.x2)).s9 ∧
      (execList env restore_trap mrest).regs .x26
        = (readTrapContext mrest.mem (mrest.regs Reg.x2)).s10 ∧
      (execList env restore_trap mrest).regs .x27
        = (readTrapContext mrest.mem (mrest.regs Reg.x2)).s11 ∧
      (execList env restore_trap mrest).regs .x28
        = (readTrapContext mrest.mem (mrest.regs Reg.x2)).t3 ∧
      (execList env restore_trap mrest).regs .x29
        = (readTrapContext mrest.mem (mrest.regs Reg.x2)).t4 ∧
      (execList env restore_trap mrest).regs .x30
        = (readTrapContext mrest.mem (mrest.regs Reg.x2)).t5 ∧
      (execList env restore_trap mrest).regs .x31
        = (readTrapContext mrest.mem (mrest.regs Reg.x2)).t6 ∧
      (execList env restore_trap mrest).sstatus
        = (readTrapContext mrest.mem (mrest.regs Reg.x2)).sstatus ∧
      (execList env restore_trap mrest).sepc
        = (readTrapContext mrest.mem (mrest.regs Reg.x2)).sepc) := by
  obtain ⟨hx2, hscr, hst, hsep, hstv, hm0, hm1, hm2, hm3, hm4, hm5, hm6, hm7, hm8,
    hm9, hm10, hm11, hm12, hm13, hm14, hm15, hm16, hm17, hm18, hm19, hm20, hm21,
    hm22, hm23, hm24, hm25, hm26, hm27, hm28, hm29, hm30, hm31, hm32⟩ :=
    save_spec env msave (execList env trap_entry_save msave)
      (msave.sscratch - 264) rfl rfl h1 h2
  obtain ⟨r01, r02, r03, r04, r05, r06, r07, r08, r09, r10, r11, r12, r13, r14, r15,
    r16, r17, r18, r19, r20, r21, r22, r23, r24, r25, r26, r27, r28, r29, r30, r31,
    rst, rse, rscr, rstv, rmem⟩ :=
    restore_body_spec env mrest (execList env restore_trap_body mrest)
      (mrest.regs Reg.x2) rfl rfl h3
  have hsret : execList env restore_trap mrest
      = exec env .sret (execList env restore_trap_body mrest) := by
    simp [restore_trap, execList_append, execList]
  refine ⟨by decide, by decide, ?_, ?_⟩
  · simp only [readTrapContext, TrapContext.mk.injEq]
    norm_num
    exact ⟨hm0, hm1, hm2, hm3, hm4, hm5, hm6, hm7, hm8, hm9, hm10, hm11, hm12,
      hm13, hm14, hm15, hm16, hm17, hm18, hm19, hm20, hm21, hm22, hm23, hm24,
      hm25, hm26, hm27, hm28, hm29, hm30, hm31, hm32⟩
  · rw [hsret]
    simp only [exec, readTrapContext]
    norm_num
    exact ⟨r01, r02, r03, r04, r05, r06, r07, r08, r09, r10, r11, r12, r13, r14,
      r15, r16, r17, r18, r19, r20, r21, r22, r23, r24, r25, r26, r27, r28, r29,
      r30, r31, rst, rse⟩

/-- Witness for C1: at a concrete machine state, the restore assembly
loads the link register from the named `ra` field of the block. -/
theorem trap_context_layout_agrees_witness :
    (execList exampleEnv restore_trap exampleMachine).regs .x1
      = (readTrapContext exampleMachine.mem (exampleMachine.regs Reg.x2)).ra :=
  (trap_context_layout_agrees exampleEnv exampleMachine exampleMachine
    (by decide) (by decide) (by decide)).2.2.2.1

/-- C3: for a user-system-call trap whose syscall outcome is
`Return(code, extra)`, the dispatcher writes `code` into the context's
`a0` slot and `extra` into the `a1` slot, and sets the saved program
counter to the pre-trap value plus 4 (stated below the 64-bit wrap
boundary; the code uses `wrapping_add(4)`), then returns to the
trampoline. -/
theorem syscall_return_updates
    (sys : Nat → Nat → List Nat → Nat → SyscallOperation)
    (cause : scause.Trap) (stval : Nat) (ctx : TrapContext) (code extra : Nat)
    (hc : cause = .Exception .UserEnvCall)
    (hs : sys ctx.a7 ctx.a6 [ctx.a0, ctx.a1, ctx.a2, ctx.a3, ctx.a4, ctx.a5] ctx.tp
      = .Return code extra)
    (hpc : ctx.sepc + 4 < 2 ^ 64) :
    ∃ ctx2, rust_trap_handler sys cause stval ctx = .ret ctx2 ∧
      ctx2.a0 = code ∧ ctx2.a1 = extra ∧ ctx2.sepc = ctx.sepc + 4 := by
  subst hc
  refine ⟨{ ctx with a0 := code, a1 := extra, sepc := (ctx.sepc + 4) % 2 ^ 64 },
    ?_, rfl, rfl, ?_⟩
  · simp [rust_trap_handler, hs]
  · simpa using Nat.mod_eq_of_lt hpc

/-- The syscall collaborator used in witnesses: every call yields
`Return(3, 0)` (the example scenario of the design document). -/
def exampleSys : Nat → Nat → List Nat → Nat → SyscallOperation :=
  fun _ _ _ _ => .Return 3 0

/-- A concrete context as constructed for an application with entry
`0x1000`, identifier `3`, stack pointer `0x9000_0000`, about to issue
syscall number 64. -/
def exampleCtx : TrapContext :=
  { (app_init_context ⟨0, 0, 0, 0⟩ 4096 3 2415919104).1 with a7 := 64 }

/-- Witness for C3 at the design document's example scenario. -/
theorem syscall_return_updates_witness :
    ∃ ctx2, rust_trap_handler exampleSys (.Exception .UserEnvCall) 0 exampleCtx
        = .ret ctx2 ∧
      ctx2.a0 = 3 ∧ ctx2.a1 = 0 ∧ ctx2.sepc = exampleCtx.sepc + 4 :=
  syscall_return_updates exampleSys (.Exception .UserEnvCall) 0 exampleCtx 3 0
    rfl rfl (by decide)

/-- C10: on the `Return(code, extra)` path the dispatcher leaves every
`TrapContext` field other than `a0`, `a1` and `sepc` unchanged: the
status CSR slot, the stack-pointer slot, the thread-pointer slot
holding the application identifier, and all remaining general-purpose
register slots keep their pre-dispatch values. -/
theorem syscall_return_frame
    (sys : Nat → Nat → List Nat → Nat → SyscallOperation)
    (cause : scause.Trap) (stval : Nat) (ctx : TrapContext) (code extra : Nat)
    (hc : cause = .Exception .UserEnvCall)
    (hs : sys ctx.a7 ctx.a6 [ctx.a0, ctx.a1, ctx.a2, ctx.a3, ctx.a4, ctx.a5] ctx.tp
      = .Return code extra) :
    ∃ ctx2, rust_trap_handler sys cause stval ctx = .ret ctx2 ∧
      ctx2.ra = ctx.ra ∧ ctx2.sp = ctx.sp ∧ ctx2.gp = ctx.gp ∧ ctx2.tp = ctx.tp ∧
      ctx2.t0 = ctx.t0 ∧ ctx2.t1 = ctx.t1 ∧ ctx2.t2 = ctx.t2 ∧
      ctx2.s0 = ctx.s0 ∧ ctx2.s1 = ctx.s1 ∧
      ctx2.a2 = ctx.a2 ∧ ctx2.a3 = ctx.a3 ∧ ctx2.a4 = ctx.a4 ∧
      ctx2.a5 = ctx.a5 ∧ ctx2.a6 = ctx.a6 ∧ ctx2.a7 = ctx.a7 ∧
      ctx2.s2 = ctx.s2 ∧ ctx2.s3 = ctx.s3 ∧ ctx2.s4 = ctx.s4 ∧
      ctx2.s5 = ctx.s5 ∧ ctx2.s6 = ctx.s6 ∧ ctx2.s7 = ctx.s7 ∧
      ctx2.s8 = ctx.s8 ∧ ctx2.s9 = ctx.s9 ∧ ctx2.s10 = ctx.s10 ∧
      ctx2.s11 = ctx.s11 ∧
      ctx2.t3 = ctx.t3 ∧ ctx2.t4 = ctx.t4 ∧ ctx2.t5 = ctx.t5 ∧
      ctx2.t6 = ctx.t6 ∧ ctx2.sstatus = ctx.sstatus := by
  subst hc
  refine ⟨{ ctx with a0 := code, a1 := extra, sepc := (ctx.sepc + 4) % 2 ^ 64 },
    ?_, rfl, rfl, rfl, rfl, rfl, rfl, rfl, rfl, rfl, rfl, rfl, rfl, rfl, rfl,
    rfl, rfl, rfl, rfl, rfl, rfl, rfl, rfl, rfl, rfl, rfl, rfl, rfl, rfl, rfl,
    rfl⟩
  simp [rust_trap_handler, hs]

/-- Witness for C10: frame preservation at the example scenario; the
thread-pointer slot still holds application identifier 3 and the
stack-pointer slot its initial value. -/
theorem syscall_return_frame_witness :
    ∃ ctx2, rust_trap_handler exampleSys (.Exception .UserEnvCall) 0 exampleCtx
        = .ret ctx2 ∧
      ctx2.ra = exampleCtx.ra ∧ ctx2.sp = exampleCtx.sp ∧
      ctx2.gp = exampleCtx.gp ∧ ctx2.tp = exampleCtx.tp ∧
      ctx2.t0 = exampleCtx.t0 ∧ ctx2.t1 = exampleCtx.t1 ∧
      ctx2.t2 = exampleCtx.t2 ∧
      ctx2.s0 = exampleCtx.s0 ∧ ctx2.s1 = exampleCtx.s1 ∧
      ctx2.a2 = exampleCtx.a2 ∧ ctx2.a3 = exampleCtx.a3 ∧
      ctx2.a4 = exampleCtx.a4 ∧ ctx2.a5 = exampleCtx.a5 ∧
      ctx2.a6 = exampleCtx.a6 ∧ ctx2.a7 = exampleCtx.a7 ∧
      ctx2.s2 = exampleCtx.s2 ∧ ctx2.s3 = exampleCtx.s3 ∧
      ctx2.s4 = exampleCtx.s4 ∧ ctx2.s5 = exampleCtx.s5 ∧
      ctx2.s6 = exampleCtx.s6 ∧ ctx2.s7 = exampleCtx.s7 ∧
      ctx2.s8 = exampleCtx.s8 ∧ ctx2.s9 = exampleCtx.s9 ∧
      ctx2.s10 = exampleCtx.s10 ∧ ctx2.s11 = exampleCtx.s11 ∧
      ctx2.t3 = exampleCtx.t3 ∧ ctx2.t4 = exampleCtx.t4 ∧
      ctx2.t5 = exampleCtx.t5 ∧ ctx2.t6 = exampleCtx.t6 ∧
      ctx2.sstatus = exampleCtx.sstatus :=
  syscall_return_frame exampleSys (.Exception .UserEnvCall) 0 exampleCtx 3 0
    rfl rfl

/-- C6: for every trap cause other than a user system call the
dispatcher halts the kernel with a panic: its result does not depend on
the syscall collaborator at all (so the collaborator is never
consulted), it is a `kernelPanic` (so neither scheduler operation is
reached), and the message is verbatim the page-fault diagnostic for
store faults and store page faults, the illegal-instruction diagnostic
for illegal instructions, and the formatted unsupported-trap diagnostic
(with the debug-rendered cause and the hexadecimal auxiliary fault
value) for every remaining cause. -/
theorem non_syscall_traps_panic
    (sys sys2 : Nat → Nat → List Nat → Nat → SyscallOperation)
    (cause : scause.Trap) (stval : Nat) (ctx : TrapContext)
    (h : cause ≠ .Exception .UserEnvCall) :
    rust_trap_handler sys cause stval ctx
      = rust_trap_handler sys2 cause stval ctx ∧
    (∃ msg, rust_trap_handler sys cause stval ctx = .kernelPanic msg) ∧
    ((cause = .Exception .StoreFault ∨ cause = .Exception .StorePageFault) →
      rust_trap_handler sys cause stval ctx
        = .kernelPanic ("[kernel] PageFault in application, core dumped.")) ∧
    (cause = .Exception .IllegalInstruction →
      rust_trap_handler sys cause stval ctx
        = .kernelPanic ("[kernel] IllegalInstruction in application, core dumped.")) ∧
    (cause ≠ .Exception .StoreFault → cause ≠ .Exception .StorePageFault →
      cause ≠ .Exception .IllegalInstruction →
      rust_trap_handler sys cause stval ctx
        = .kernelPanic (unsupportedTrapMsg cause stval)) := by
  cases cause with
  | Exception e => cases e <;> simp_all [rust_trap_handler]
  | Interrupt i => cases i <;> simp_all [rust_trap_handler]

/-- Witness for C6: a store fault halts with the verbatim page-fault
diagnostic, independently of the syscall collaborator. -/
theorem non_syscall_traps_panic_witness :
    rust_trap_handler exampleSys (.Exception .StoreFault) 0 exampleCtx
      = .kernelPanic ("[kernel] PageFault in application, core dumped.") :=
  (non_syscall_traps_panic exampleSys exampleSys (.Exception .StoreFault) 0
    exampleCtx (by decide)).2.2.1 (Or.inl rfl)

/-- C7: for every input, the constructed context has saved program
counter equal to the entry address, stack-pointer slot equal to the
supplied stack pointer, thread-pointer slot equal to the application
identifier, every other general-purpose register slot zero, and a
status CSR whose previous-privilege (SPP) field is user. -/
theorem app_init_context_fields (hart : HartCsrs) (entry app_id sp : Nat) :
    (app_init_context hart entry app_id sp).1.sepc = entry ∧
    (app_init_context hart entry app_id sp).1.sp = sp ∧
    (app_init_context hart entry app_id sp).1.tp = app_id ∧
    (app_init_context hart entry app_id sp).1.ra = 0 ∧
    (app_init_context hart entry app_id sp).1.gp = 0 ∧
    (app_init_context hart entry app_id sp).1.t0 = 0 ∧
    (app_init_context hart entry app_id sp).1.t1 = 0 ∧
    (app_init_context hart entry app_id sp).1.t2 = 0 ∧
    (app_init_context hart entry app_id sp).1.s0 = 0 ∧
    (app_init_context hart entry app_id sp).1.s1 = 0 ∧
    (app_init_context hart entry app_id sp).1.a0 = 0 ∧
    (app_init_context hart entry app_id sp).1.a1 = 0 ∧
    (app_init_context hart entry app_id sp).1.a2 = 0 ∧
    (app_init_context hart entry app_id sp).1.a3 = 0 ∧
    (app_init_context hart entry app_id sp).1.a4 = 0 ∧
    (app_init_context hart entry app_id sp).1.a5 = 0 ∧
    (app_init_context hart entry app_id sp).1.a6 = 0 ∧
    (app_init_context hart entry app_id sp).1.a7 = 0 ∧
    (app_init_context hart entry app_id sp).1.s2 = 0 ∧
    (app_init_context hart entry app_id sp).1.s3 = 0 ∧
    (app_init_context hart entry app_id sp).1.s4 = 0 ∧
    (app_init_context hart entry app_id sp).1.s5 = 0 ∧
    (app_init_context hart entry app_id sp).1.s6 = 0 ∧
    (app_init_context hart entry app_id sp).1.s7 = 0 ∧
    (app_init_context hart entry app_id sp).1.s8 = 0 ∧
    (app_init_context hart entry app_id sp).1.s9 = 0 ∧
    (app_init_context hart entry app_id sp).1.s10 = 0 ∧
    (app_init_context hart entry app_id sp).1.s11 = 0 ∧
    (app_init_context hart entry app_id sp).1.t3 = 0 ∧
    (app_init_context hart entry app_id sp).1.t4 = 0 ∧
    (app_init_context hart entry app_id sp).1.t5 = 0 ∧
    (app_init_context hart entry app_id sp).1.t6 = 0 ∧
    sppField (app_init_context hart entry app_id sp).1.sstatus = 0 := by
  refine ⟨rfl, rfl, rfl, rfl, rfl, rfl, rfl, rfl, rfl, rfl, rfl, rfl, rfl, rfl,
    rfl, rfl, rfl, rfl, rfl, rfl, rfl, rfl, rfl, rfl, rfl, rfl, rfl, rfl, rfl,
    rfl, rfl, rfl, ?_⟩
  show sppField (set_spp_user hart.sstatus) = 0
  unfold sppField set_spp_user
  omega

/-- C9 counterexample: context construction is not free of effects on
the hart.  On a hart whose `sstatus` has the SPP field set to
supervisor (value 256), `app_init_context` changes the hart's CSR
state, because the Rust code executes `sstatus::set_spp(SPP::User)`
before reading `sstatus` back. -/
theorem app_init_context_csr_counterexample :
    (app_init_context ⟨256, 0, 0, 0⟩ 4096 3 2415919104).2 ≠ ⟨256, 0, 0, 0⟩ := by
  decide

/-- C9 amended: context construction cannot fail (it is total and
returns a context for every input), and its only effect outside the
returned context is on the hart's status CSR, whose previous-privilege
(SPP) field it forces to user: `sepc`, `sscratch` and `stvec` are
unchanged, and all `sstatus` bits other than bit 8 (those below and
above the SPP field) are preserved while the SPP field becomes 0. -/
theorem app_init_context_effects (hart : HartCsrs) (entry app_id sp : Nat) :
    (app_init_context hart entry app_id sp).2.sepc = hart.sepc ∧
    (app_init_context hart entry app_id sp).2.sscratch = hart.sscratch ∧
    (app_init_context hart entry app_id sp).2.stvec = hart.stvec ∧
    (app_init_context hart entry app_id sp).2.sstatus
      = set_spp_user hart.sstatus ∧
    (app_init_context hart entry app_id sp).2.sstatus % 256
      = hart.sstatus % 256 ∧
    (app_init_context hart entry app_id sp).2.sstatus / 512
      = hart.sstatus / 512 ∧
    sppField (app_init_context hart entry app_id sp).2.sstatus = 0 := by
  refine ⟨rfl, rfl, rfl, rfl, ?_, ?_, ?_⟩
  · show set_spp_user hart.sstatus % 256 = hart.sstatus % 256
    unfold set_spp_user; omega
  · show set_spp_user hart.sstatus / 512 = hart.sstatus / 512
    unfold set_spp_user; omega
  · show sppField (set_spp_user hart.sstatus) = 0
    unfold sppField set_spp_user; omega
